import Mathlib

/-!
Shallow embedding of the data-and-rules core of the waste-management portal
(web_app_wastemanagement.py): the relational state, the credential check,
the points mutations performed by the page handlers, and the aggregation
used for the segregation-rate gauges. Definitions are translated from the
Python source; SQLite rows become Lean structures, the database connection
becomes an explicit DbState value, and each form-submission branch becomes
a state-transition function.
-/

set_option maxRecDepth 1000000

namespace WasteMgmt

/-! ### SHA-256 (hashlib.sha256(...).hexdigest())

Both show_register and verify_password hash passwords with
hashlib.sha256(password.encode()).hexdigest(); this is a faithful,
executable model of that digest over UTF-8 encoded strings. -/

/-- Reduce a natural number modulo 2^32, the word size of SHA-256. -/
def w32 (n : Nat) : Nat := n % 4294967296

/-- Rotate a 32-bit word right by n bit positions. -/
def rotr32 (x n : Nat) : Nat := w32 ((x >>> n) ||| (x <<< (32 - n)))

def bsig0 (x : Nat) : Nat := rotr32 x 2 ^^^ rotr32 x 13 ^^^ rotr32 x 22

def bsig1 (x : Nat) : Nat := rotr32 x 6 ^^^ rotr32 x 11 ^^^ rotr32 x 25

def ssig0 (x : Nat) : Nat := rotr32 x 7 ^^^ rotr32 x 18 ^^^ (x >>> 3)

def ssig1 (x : Nat) : Nat := rotr32 x 17 ^^^ rotr32 x 19 ^^^ (x >>> 10)

def sha256K : List Nat :=
  [1116352408, 1899447441, 3049323471, 3921009573,
   961987163, 1508970993, 2453635748, 2870763221,
   3624381080, 310598401, 607225278, 1426881987,
   1925078388, 2162078206, 2614888103, 3248222580,
   3835390401, 4022224774, 264347078, 604807628,
   770255983, 1249150122, 1555081692, 1996064986,
   2554220882, 2821834349, 2952996808, 3210313671,
   3336571891, 3584528711, 113926993, 338241895,
   666307205, 773529912, 1294757372, 1396182291,
   1695183700, 1986661051, 2177026350, 2456956037,
   2730485921, 2820302411, 3259730800, 3345764771,
   3516065817, 3600352804, 4094571909, 275423344,
   430227734, 506948616, 659060556, 883997877,
   958139571, 1322822218, 1537002063, 1747873779,
   1955562222, 2024104815, 2227730452, 2361852424,
   2428436474, 2756734187, 3204031479, 3329325298]

structure Sha256State where
  a : Nat
  b : Nat
  c : Nat
  d : Nat
  e : Nat
  f : Nat
  g : Nat
  h : Nat
deriving Repr, DecidableEq

def sha256Round (s : Sha256State) (kw : Nat × Nat) : Sha256State :=
  let ch := (s.e &&& s.f) ^^^ ((s.e ^^^ 4294967295) &&& s.g)
  let maj := (s.a &&& s.b) ^^^ (s.a &&& s.c) ^^^ (s.b &&& s.c)
  let t1 := w32 (s.h + bsig1 s.e + ch + kw.1 + kw.2)
  let t2 := w32 (bsig0 s.a + maj)
  ⟨w32 (t1 + t2), s.a, s.b, s.c, w32 (s.d + t1), s.e, s.f, s.g⟩

/-- Combine a byte stream into big-endian 32-bit words. -/
def bytesToWords : List Nat → List Nat
  | b0 :: b1 :: b2 :: b3 :: rest =>
      (b0 * 16777216 + b1 * 65536 + b2 * 256 + b3) :: bytesToWords rest
  | _ => []

/-- Extend the 16-word message schedule by k further words. -/
def extendWords (w : List Nat) : Nat → List Nat
  | 0 => w
  | k + 1 =>
      let p := extendWords w k
      let n := p.length
      p ++ [w32 (ssig1 (p.getD (n - 2) 0) + p.getD (n - 7) 0 +
                 ssig0 (p.getD (n - 15) 0) + p.getD (n - 16) 0)]

def processBlock (hs : Sha256State) (block : List Nat) : Sha256State :=
  let w := extendWords (bytesToWords block) 48
  let fin := (List.zip sha256K w).foldl sha256Round hs
  ⟨w32 (hs.a + fin.a), w32 (hs.b + fin.b), w32 (hs.c + fin.c), w32 (hs.d + fin.d),
   w32 (hs.e + fin.e), w32 (hs.f + fin.f), w32 (hs.g + fin.g), w32 (hs.h + fin.h)⟩

/-- SHA-256 padding: append 0x80, zeros, and the 64-bit big-endian bit length. -/
def sha256Pad (msg : List Nat) : List Nat :=
  let L := msg.length
  let zeros := (119 - L % 64) % 64
  msg ++ [128] ++ List.replicate zeros 0 ++
    (List.range 8).map (fun i => (8 * L) >>> (8 * (7 - i)) &&& 255)

def chunks64Go : Nat → List Nat → List (List Nat)
  | 0, _ => []
  | _, [] => []
  | fuel + 1, a :: rest => ((a :: rest).take 64) :: chunks64Go fuel ((a :: rest).drop 64)

/-- Split a byte stream into 64-byte blocks (after padding the length is a multiple of 64). -/
def chunks64 (l : List Nat) : List (List Nat) := chunks64Go l.length l

def wordToHex (x : Nat) : List Char :=
  (List.range 8).map (fun i => Nat.digitChar ((x >>> (4 * (7 - i))) &&& 15))

/-- UTF-8 encoding of a single character, as Python's str.encode produces. -/
def charUtf8 (c : Char) : List Nat :=
  let n := c.toNat
  if n < 128 then [n]
  else if n < 2048 then [192 + n / 64, 128 + n % 64]
  else if n < 65536 then [224 + n / 4096, 128 + n / 64 % 64, 128 + n % 64]
  else [240 + n / 262144, 128 + n / 4096 % 64, 128 + n / 64 % 64, 128 + n % 64]

def utf8Bytes (s : String) : List Nat := (s.data.map charUtf8).flatten

/-- hashlib.sha256(s.encode()).hexdigest(): lowercase hex digest of SHA-256. -/
def sha256hex (s : String) : String :=
  let init : Sha256State :=
    ⟨1779033703, 3144134277, 1013904242, 2773480762, 1359893119, 2600822924, 528734635, 1541459225⟩
  let fin := (chunks64 (sha256Pad (utf8Bytes s))).foldl processBlock init
  ⟨([fin.a, fin.b, fin.c, fin.d, fin.e, fin.f, fin.g, fin.h].map wordToHex).flatten⟩

/-! ### Data model (init_database, lines 110-205)

One structure per SQLite table row, carrying the columns the handlers read
or write. DATETIME columns are carried as opaque strings supplied by the
caller (CURRENT_TIMESTAMP / form dates); REAL columns are carried as ℚ:
the handlers only store and compare them, never do float arithmetic on
them. The AUTOINCREMENT counters are explicit fields of the state. -/

structure User where
  id : Nat
  username : String
  email : String
  password_hash : String
  full_name : String
  phone : String
  address : String
  user_type : String
  ward_number : String
  unique_waste_id : String
  registration_date : String
  training_completed : Bool
  points : Int
deriving Repr, DecidableEq

structure WasteCollection where
  id : Nat
  user_id : Nat
  collection_date : String
  waste_type : String
  weight_kg : ℚ
  segregated : Bool
  collected_by : Option String
  vehicle_number : Option String
  status : String
  latitude : ℚ
  longitude : ℚ
deriving Repr, DecidableEq

structure Complaint where
  id : Nat
  user_id : Nat
  complaint_type : String
  description : String
  location : String
  latitude : ℚ
  longitude : ℚ
  status : String
  created_date : String
  resolved_date : Option String
deriving Repr, DecidableEq

/-- One row of the rewards table: the append-only points ledger. -/
structure RewardEvent where
  id : Nat
  user_id : Nat
  reward_type : String
  points_earned : Int
  description : String
  earned_date : String
deriving Repr, DecidableEq

structure DbState where
  users : List User
  waste_collections : List WasteCollection
  complaints : List Complaint
  rewards : List RewardEvent
  next_user_id : Nat
  next_collection_id : Nat
  next_complaint_id : Nat
deriving Repr, DecidableEq

/-- Balance of the first user row with the given id (SELECT ... WHERE id = ? semantics). -/
def userPoints (db : DbState) (uid : Nat) : Option Int :=
  (db.users.find? (fun u => u.id == uid)).map (fun u => u.points)

/-- Sum of the point deltas of all rewards-ledger rows recorded for a user. -/
def ledgerPointsSum (db : DbState) (uid : Nat) : Int :=
  ((db.rewards.filter (fun r => r.user_id == uid)).map (fun r => r.points_earned)).sum

/-- UPDATE users SET points = points + amount WHERE id = uid (lines 694, 818). -/
def creditPoints (users : List User) (uid : Nat) (amount : Int) : List User :=
  users.map (fun u => if u.id == uid then { u with points := u.points + amount } else u)

/-! ### Authentication (authenticate_user / verify_password, lines 271-288) -/

/-- The dictionary authenticate_user returns on success (password hash,
registration date and training flag are not part of it). -/
structure AuthUser where
  id : Nat
  username : String
  email : String
  full_name : String
  phone : String
  address : String
  user_type : String
  ward_number : String
  unique_waste_id : String
  points : Int
deriving Repr, DecidableEq

def authView (u : User) : AuthUser :=
  { id := u.id, username := u.username, email := u.email, full_name := u.full_name,
    phone := u.phone, address := u.address, user_type := u.user_type,
    ward_number := u.ward_number, unique_waste_id := u.unique_waste_id, points := u.points }

/-- verify_password(password, password_hash): recompute SHA-256 and compare. -/
def verify_password (password password_hash : String) : Bool :=
  sha256hex password == password_hash

/-- authenticate_user(username, password): fetch the first row whose username
matches; return the user dictionary when the recomputed hash matches the
stored one, and None (modelled as none) in both failure cases. -/
def authenticate_user (db : DbState) (username password : String) : Option AuthUser :=
  match db.users.find? (fun u => u.username == username) with
  | some u => if verify_password password u.password_hash then some (authView u) else none
  | none => none

/-! ### Registration (show_register submit branch, lines 558-571) -/

inductive RegError
  | integrityError
deriving Repr, DecidableEq

structure RegisterInput where
  username : String
  email : String
  password : String
  full_name : String
  phone : String
  address : String
  ward_number : String
deriving Repr, DecidableEq

/-- secrets.token_hex(4): two lowercase hex digits per random byte. -/
def byteHex (b : Nat) : List Char := [Nat.digitChar (b / 16), Nat.digitChar (b % 16)]

/-- secrets.token_hex(4).upper(): the hex expansion of the random bytes, uppercased. -/
def token_hex_upper (tokenBytes : List Nat) : String :=
  ⟨((tokenBytes.map byteHex).flatten).map Char.toUpper⟩

/-- The tracking code WG{year}{token_hex(4).upper()} (line 562); the random
bytes drawn from the secrets CSPRNG are passed in explicitly. -/
def make_tracking_code (year : Nat) (tokenBytes : List Nat) : String :=
  "WG" ++ toString year ++ token_hex_upper tokenBytes

/-- The row the registration INSERT creates: columns not listed in the INSERT
take the schema defaults user_type = citizen, training_completed = 0, points = 0. -/
def registerUser (db : DbState) (inp : RegisterInput) (year : Nat) (tokenBytes : List Nat)
    (now : String) : User :=
  { id := db.next_user_id
    username := inp.username
    email := inp.email
    password_hash := sha256hex inp.password
    full_name := inp.full_name
    phone := inp.phone
    address := inp.address
    user_type := "citizen"
    ward_number := inp.ward_number
    unique_waste_id := make_tracking_code year tokenBytes
    registration_date := now
    training_completed := false
    points := 0 }

/-- The registration submit branch: the INSERT succeeds unless one of the
UNIQUE columns (username, email, unique_waste_id) collides with an existing
row, in which case sqlite3.IntegrityError is raised, caught, and nothing is
committed. -/
def show_register (db : DbState) (inp : RegisterInput) (year : Nat) (tokenBytes : List Nat)
    (now : String) : Except RegError DbState :=
  let code := make_tracking_code year tokenBytes
  if db.users.any (fun u =>
      u.username == inp.username || u.email == inp.email || u.unique_waste_id == code) then
    .error RegError.integrityError
  else
    .ok { db with
            users := db.users ++ [registerUser db inp year tokenBytes now],
            next_user_id := db.next_user_id + 1 }

/-- The database state after the registration attempt (unchanged on IntegrityError). -/
def registerState (db : DbState) (inp : RegisterInput) (year : Nat) (tokenBytes : List Nat)
    (now : String) : DbState :=
  match show_register db inp year tokenBytes now with
  | .ok db2 => db2
  | .error _ => db

/-! ### Collection scheduling (show_schedule_collection submit branch, lines 683-698) -/

structure ScheduleInput where
  waste_type : String
  weight_kg : ℚ
  collection_date : String
  segregated : Bool
  latitude : ℚ
  longitude : ℚ
deriving Repr, DecidableEq

/-- The waste_collections row the scheduling INSERT creates (status takes the
schema default scheduled; collector and vehicle are NULL until collected). -/
def newWasteCollection (db : DbState) (uid : Nat) (inp : ScheduleInput) : WasteCollection :=
  { id := db.next_collection_id
    user_id := uid
    collection_date := inp.collection_date
    waste_type := inp.waste_type
    weight_kg := inp.weight_kg
    segregated := inp.segregated
    collected_by := none
    vehicle_number := none
    status := "scheduled"
    latitude := inp.latitude
    longitude := inp.longitude }

/-- The scheduling submit branch: insert the collection row and award
10 points when segregated, else 5, in the same commit. -/
def show_schedule_collection (db : DbState) (uid : Nat) (inp : ScheduleInput) : DbState :=
  let points_earned : Int := if inp.segregated then 10 else 5
  { db with
      waste_collections := db.waste_collections ++ [newWasteCollection db uid inp],
      users := creditPoints db.users uid points_earned,
      next_collection_id := db.next_collection_id + 1 }

/-! ### Complaint filing (show_complaints submit branch, lines 808-822) -/

structure ComplaintInput where
  complaint_type : String
  description : String
  location : String
  latitude : ℚ
  longitude : ℚ
deriving Repr, DecidableEq

/-- The complaints row the INSERT creates (status takes the schema default pending). -/
def newComplaint (db : DbState) (uid : Nat) (inp : ComplaintInput) (now : String) : Complaint :=
  { id := db.next_complaint_id
    user_id := uid
    complaint_type := inp.complaint_type
    description := inp.description
    location := inp.location
    latitude := inp.latitude
    longitude := inp.longitude
    status := "pending"
    created_date := now
    resolved_date := none }

/-- The complaint submit branch: insert the complaint row and award 5 points
in the same commit. -/
def show_complaints_submit (db : DbState) (uid : Nat) (inp : ComplaintInput) (now : String) :
    DbState :=
  { db with
      complaints := db.complaints ++ [newComplaint db uid inp now],
      users := creditPoints db.users uid 5,
      next_complaint_id := db.next_complaint_id + 1 }

/-! ### Shop purchase (show_shop buy branch, lines 882-896)

The purchase only touches the in-session balance (the source comment says
"Simulate purchase"); the branch is a pure function of that balance. -/

inductive ShopError
  | insufficientPoints
deriving Repr, DecidableEq

def show_shop_buy (points product_points quantity : Int) : Except ShopError Int :=
  let total_points := product_points * quantity
  if points ≥ total_points then .ok (points - total_points)
  else .error ShopError.insufficientPoints

/-- The balance after the buy attempt (unchanged when the purchase is rejected). -/
def shopBalanceAfter (points product_points quantity : Int) : Int :=
  match show_shop_buy points product_points quantity with
  | .ok b => b
  | .error _ => points

/-! ### Worker status updates (show_worker_collections, lines 1345-1360)

The update form is rendered only for rows whose current status is
scheduled (line 1346), and the selectbox offers exactly the three values
scheduled, collected, processed (line 1347); the UPDATE then stamps the
status, collector name and vehicle on the row with the chosen id. -/

inductive StatusChoice
  | scheduled
  | collected
  | processed
deriving Repr, DecidableEq

def StatusChoice.toText : StatusChoice → String
  | .scheduled => "scheduled"
  | .collected => "collected"
  | .processed => "processed"

structure UpdateCmd where
  collection_id : Nat
  new_status : StatusChoice
  worker_name : String
  vehicle_number : String
deriving Repr, DecidableEq

def applyWorkerUpdate (db : DbState) (cmd : UpdateCmd) : DbState :=
  { db with waste_collections := db.waste_collections.map (fun c =>
      if c.id == cmd.collection_id && c.status == "scheduled" then
        { c with status := cmd.new_status.toText,
                 collected_by := some cmd.worker_name,
                 vehicle_number := some cmd.vehicle_number }
      else c) }

def applyWorkerUpdates (db : DbState) (cmds : List UpdateCmd) : DbState :=
  cmds.foldl applyWorkerUpdate db

/-- Position of a status along the scheduled, collected, processed chain. -/
def statusRank : String → Nat
  | "scheduled" => 0
  | "collected" => 1
  | "processed" => 2
  | _ => 3

/-- How one worker update may change one collection row: the status never
moves down the chain, and a row not in scheduled is left untouched. -/
def StatusStep (c c2 : WasteCollection) : Prop :=
  statusRank c.status ≤ statusRank c2.status ∧ (c.status ≠ "scheduled" → c2 = c)

/-! ### Segregation rate aggregations -/

/-- create_efficiency_dashboard, lines 1458-1460: share of segregated
collections as a percentage, defined as 0 over an empty scope. -/
def segregation_rate_dashboard (collections : List WasteCollection) : ℚ :=
  let total_collections := collections.length
  let segregated_collections := (collections.filter (fun c => c.segregated)).length
  if total_collections > 0 then
    ((segregated_collections : ℚ) / (total_collections : ℚ)) * 100
  else 0

/-- show_register, line 619: waste_data.segregated.mean() * 100; a pandas
mean over zero rows is NaN, modelled as none. -/
def segregation_rate_register (collections : List WasteCollection) : Option ℚ :=
  match collections with
  | [] => none
  | l => some ((((l.filter (fun c => c.segregated)).length : ℚ) / (l.length : ℚ)) * 100)

/-- Uppercase hexadecimal digits, the alphabet of the random part of a tracking code. -/
def isUpperHexDigit (c : Char) : Bool := "0123456789ABCDEF".data.contains c

/-! ### Sample data for the concrete witnesses (the scenario of spec section 8) -/

def aliceUser : User :=
  { id := 1, username := "alice", email := "alice@example.com",
    password_hash := "stored-hash", full_name := "Alice", phone := "9876500001",
    address := "12 Green Street", user_type := "citizen", ward_number := "Ward 1",
    unique_waste_id := "WG2026AB12CD34", registration_date := "2026-10-12",
    training_completed := false, points := 0 }

def aliceDb : DbState :=
  { users := [aliceUser], waste_collections := [], complaints := [], rewards := [],
    next_user_id := 2, next_collection_id := 1, next_complaint_id := 1 }

def aliceSchedule : ScheduleInput :=
  { waste_type := "wet", weight_kg := 7 / 2, collection_date := "2026-10-13",
    segregated := true, latitude := 28, longitude := 77 }

def aliceComplaint : ComplaintInput :=
  { complaint_type := "Missed Collection", description := "bin not picked up",
    location := "12 Green Street", latitude := 28, longitude := 77 }

/-- State after alice schedules one segregated collection and files one complaint. -/
def aliceDbAfter : DbState :=
  show_complaints_submit (show_schedule_collection aliceDb 1 aliceSchedule) 1 aliceComplaint
    "2026-10-14"

def regInp : RegisterInput :=
  { username := "bob", email := "bob@example.com", password := "bobsecret",
    full_name := "Bob", phone := "9876500002", address := "3 Blue Lane",
    ward_number := "Ward 2" }

/-- A registration attempt reusing alice's username. -/
def dupInp : RegisterInput :=
  { username := "alice", email := "other@example.com", password := "pw",
    full_name := "Alice Two", phone := "9876500003", address := "9 Red Road",
    ward_number := "Ward 3" }

def emptyDb : DbState :=
  { users := [], waste_collections := [], complaints := [], rewards := [],
    next_user_id := 1, next_collection_id := 1, next_complaint_id := 1 }

def sampleUser1 : User :=
  { id := 1, username := "user1", email := "user1@example.com",
    password_hash := sha256hex "user1123", full_name := "User 1", phone := "9876500004",
    address := "Address 1", user_type := "citizen", ward_number := "Ward 2",
    unique_waste_id := "WG20240001", registration_date := "2024-01-01",
    training_completed := false, points := 100 }

def sampleDb : DbState :=
  { users := [sampleUser1], waste_collections := [], complaints := [], rewards := [],
    next_user_id := 2, next_collection_id := 1, next_complaint_id := 1 }

def processedRow : WasteCollection :=
  { id := 1, user_id := 1, collection_date := "2026-10-12", waste_type := "dry",
    weight_kg := 2, segregated := false, collected_by := some "Worker W",
    vehicle_number := some "DL01AB1234", status := "processed", latitude := 28,
    longitude := 77 }

def scheduledRow : WasteCollection :=
  { id := 2, user_id := 1, collection_date := "2026-10-12", waste_type := "wet",
    weight_kg := 3, segregated := true, collected_by := none,
    vehicle_number := none, status := "scheduled", latitude := 28, longitude := 77 }

def workerDb : DbState :=
  { users := [aliceUser], waste_collections := [processedRow, scheduledRow],
    complaints := [], rewards := [], next_user_id := 2, next_collection_id := 3,
    next_complaint_id := 1 }

def workerCmds : List UpdateCmd :=
  [{ collection_id := 1, new_status := StatusChoice.scheduled, worker_name := "Worker W",
     vehicle_number := "DL01CD5678" },
   { collection_id := 2, new_status := StatusChoice.collected, worker_name := "Worker W",
     vehicle_number := "DL01CD5678" }]


/-! ### Helper lemmas -/

theorem find?_creditPoints (l : List User) (uid : Nat) (d : Int) (u : User)
    (h : l.find? (fun x => x.id == uid) = some u) :
    (creditPoints l uid d).find? (fun x => x.id == uid) =
      some { u with points := u.points + d } := by
  induction l with
  | nil => simp [List.find?] at h
  | cons a t ih =>
      cases ha : (a.id == uid) with
      | true =>
          simp only [List.find?, ha] at h
          cases h
          simp [creditPoints, List.find?, ha]
      | false =>
          simp only [List.find?, ha] at h
          simpa [creditPoints, List.find?, ha] using ih h

theorem find?_append_of_none {α : Type} (l1 l2 : List α) (p : α → Bool)
    (h : ∀ x ∈ l1, p x = false) : (l1 ++ l2).find? p = l2.find? p := by
  induction l1 with
  | nil => rfl
  | cons a t ih =>
      have ha : p a = false := h a (by simp)
      simp only [List.cons_append, List.find?, ha]
      exact ih (fun x hx => h x (by simp [hx]))

/-! ### Claims -/

/-- C1 (code_bug witness evaluation): after the spec section 8 scenario — alice,
starting at 0 points with an empty rewards ledger, schedules one segregated
collection and files one complaint — her stored balance is 15, yet the rewards
ledger holds no rows for her, so its point-delta sum is 0: the handlers update
users.points directly and never insert a rewards row, violating the ledger
invariant the spec mandates. -/
theorem balance_ledger_divergence :
    userPoints aliceDbAfter 1 = some 15 ∧
    ledgerPointsSum aliceDbAfter 1 = 0 ∧
    userPoints aliceDbAfter 1 ≠ some (ledgerPointsSum aliceDbAfter 1) := by
  refine ⟨by decide, by decide, by decide⟩

/-- C2: a successful collection-scheduling submission appends exactly the new
collection row (status scheduled, owned by the submitting user) and, in the
same state transition, credits the user 10 points when segregated and 5
otherwise, so the balance after equals the balance before plus that delta. -/
theorem schedule_collection_spec (db : DbState) (uid : Nat) (inp : ScheduleInput) (u : User)
    (h : db.users.find? (fun x => x.id == uid) = some u) :
    userPoints (show_schedule_collection db uid inp) uid =
      some (u.points + (if inp.segregated then 10 else 5)) ∧
    (show_schedule_collection db uid inp).waste_collections =
      db.waste_collections ++ [newWasteCollection db uid inp] ∧
    (newWasteCollection db uid inp).status = "scheduled" ∧
    (newWasteCollection db uid inp).user_id = uid := by
  refine ⟨?_, rfl, rfl, rfl⟩
  simp [show_schedule_collection, userPoints, find?_creditPoints db.users uid _ u h]

theorem schedule_collection_spec_witness :
    userPoints (show_schedule_collection aliceDb 1 aliceSchedule) 1 = some 10 ∧
    (show_schedule_collection aliceDb 1 aliceSchedule).waste_collections =
      [newWasteCollection aliceDb 1 aliceSchedule] := by
  have h := schedule_collection_spec aliceDb 1 aliceSchedule aliceUser (by rfl)
  refine ⟨?_, ?_⟩
  · rw [h.1]; rfl
  · rw [h.2.1]; rfl

/-- C5: a complaint submission by a logged-in user appends exactly one
complaint row, with status pending and owned by that user, and credits the
filing user exactly 5 points in the same state transition. -/
theorem complaint_submit_spec (db : DbState) (uid : Nat) (inp : ComplaintInput) (now : String)
    (u : User) (h : db.users.find? (fun x => x.id == uid) = some u) :
    (show_complaints_submit db uid inp now).complaints =
      db.complaints ++ [newComplaint db uid inp now] ∧
    (newComplaint db uid inp now).status = "pending" ∧
    (newComplaint db uid inp now).user_id = uid ∧
    userPoints (show_complaints_submit db uid inp now) uid = some (u.points + 5) := by
  refine ⟨rfl, rfl, rfl, ?_⟩
  simp [show_complaints_submit, userPoints, find?_creditPoints db.users uid 5 u h]

theorem complaint_submit_spec_witness :
    (show_complaints_submit aliceDb 1 aliceComplaint "2026-10-14").complaints =
      [newComplaint aliceDb 1 aliceComplaint "2026-10-14"] ∧
    userPoints (show_complaints_submit aliceDb 1 aliceComplaint "2026-10-14") 1 = some 5 := by
  have h := complaint_submit_spec aliceDb 1 aliceComplaint "2026-10-14" aliceUser (by rfl)
  refine ⟨?_, ?_⟩
  · rw [h.1]; rfl
  · rw [h.2.2.2]; rfl


/-- C3: a registration attempt whose username or email matches an existing
user hits the UNIQUE constraint: the handler reports IntegrityError and the
database state — in particular the previously registered row — is unchanged. -/
theorem register_duplicate_rejected (db : DbState) (inp : RegisterInput) (year : Nat)
    (tokenBytes : List Nat) (now : String)
    (h : db.users.any (fun u => u.username == inp.username || u.email == inp.email) = true) :
    show_register db inp year tokenBytes now = .error RegError.integrityError ∧
    registerState db inp year tokenBytes now = db := by
  have hg : db.users.any (fun u =>
      u.username == inp.username || u.email == inp.email ||
        u.unique_waste_id == make_tracking_code year tokenBytes) = true := by
    rcases List.any_eq_true.mp h with ⟨u, hu, hp⟩
    refine List.any_eq_true.mpr ⟨u, hu, ?_⟩
    revert hp
    cases u.username == inp.username <;> cases u.email == inp.email <;> simp
  refine ⟨?_, ?_⟩
  · simp [show_register, hg]
  · simp [registerState, show_register, hg]

theorem register_duplicate_rejected_witness :
    show_register aliceDb dupInp 2026 [0, 1, 2, 3] "2026-10-14" =
      .error RegError.integrityError ∧
    registerState aliceDb dupInp 2026 [0, 1, 2, 3] "2026-10-14" = aliceDb :=
  register_duplicate_rejected aliceDb dupInp 2026 [0, 1, 2, 3] "2026-10-14" (by decide)

/-- C4: a shop purchase whose cost (unit points times quantity) exceeds the
current balance is rejected with the insufficient-points error and leaves the
balance unchanged; when the cost is within the balance, the purchase succeeds
and the balance decreases by exactly that cost. -/
theorem shop_debit_spec (points product_points quantity : Int) :
    (product_points * quantity > points →
       show_shop_buy points product_points quantity = .error ShopError.insufficientPoints ∧
       shopBalanceAfter points product_points quantity = points) ∧
    (product_points * quantity ≤ points →
       show_shop_buy points product_points quantity = .ok (points - product_points * quantity) ∧
       shopBalanceAfter points product_points quantity = points - product_points * quantity) := by
  constructor <;> intro h
  · have hc : ¬ points ≥ product_points * quantity := by omega
    simp [show_shop_buy, shopBalanceAfter, hc]
  · have hc : points ≥ product_points * quantity := by omega
    simp [show_shop_buy, shopBalanceAfter, hc]

theorem shop_debit_spec_witness :
    (show_shop_buy 15 20 1 = .error ShopError.insufficientPoints ∧
       shopBalanceAfter 15 20 1 = 15) ∧
    (show_shop_buy 15 5 2 = .ok 5 ∧ shopBalanceAfter 15 5 2 = 5) := by
  refine ⟨(shop_debit_spec 15 20 1).1 (by decide), ?_⟩
  have h := (shop_debit_spec 15 5 2).2 (by decide)
  simpa using h

/-- C6 counterexample: the claim quantifies over every segregation-rate
computation in the program, but the one on the registration page (line 619)
takes a pandas mean over the collection rows, which over an empty scope is
NaN (modelled as none), not 0. -/
theorem segregation_rate_register_empty_nan :
    segregation_rate_register [] = none ∧ segregation_rate_register [] ≠ some 0 := by
  refine ⟨rfl, by simp [segregation_rate_register]⟩

/-- C6 amended: the efficiency-dashboard segregation-rate computation
(lines 1458-1460) always lies between 0 and 100 and is defined as 0 — not an
error and not NaN — over an empty scope; the registration-page computation,
by contrast, yields NaN over an empty scope. -/
theorem segregation_rate_dashboard_spec :
    (∀ l : List WasteCollection,
       0 ≤ segregation_rate_dashboard l ∧ segregation_rate_dashboard l ≤ 100) ∧
    segregation_rate_dashboard [] = 0 := by
  refine ⟨fun l => ?_, by simp [segregation_rate_dashboard]⟩
  unfold segregation_rate_dashboard
  by_cases hl : l.length > 0
  · rw [if_pos hl]
    have hle : ((l.filter (fun c => c.segregated)).length : ℚ) ≤ (l.length : ℚ) := by
      exact_mod_cast List.length_filter_le _ l
    have hpos : (0 : ℚ) < (l.length : ℚ) := by exact_mod_cast hl
    constructor
    · positivity
    · have hone : ((l.filter (fun c => c.segregated)).length : ℚ) / (l.length : ℚ) ≤ 1 :=
        (div_le_one hpos).mpr hle
      nlinarith
  · rw [if_neg hl]
    norm_num


theorem statusStep_refl (c : WasteCollection) : StatusStep c c :=
  ⟨le_refl _, fun _ => rfl⟩

theorem statusStep_trans {c1 c2 c3 : WasteCollection} (h12 : StatusStep c1 c2)
    (h23 : StatusStep c2 c3) : StatusStep c1 c3 := by
  refine ⟨le_trans h12.1 h23.1, fun hne => ?_⟩
  have he : c2 = c1 := h12.2 hne
  have : c3 = c2 := h23.2 (by rw [he]; exact hne)
  rw [this, he]

theorem forall2_statusStep_trans :
    ∀ {l1 l2 l3 : List WasteCollection}, List.Forall₂ StatusStep l1 l2 →
      List.Forall₂ StatusStep l2 l3 → List.Forall₂ StatusStep l1 l3 := by
  intro l1 l2 l3 h12
  induction h12 generalizing l3 with
  | nil => intro h23; cases h23; exact List.Forall₂.nil
  | cons hab htl ih =>
      intro h23
      cases h23 with
      | cons hbc htl2 => exact List.Forall₂.cons (statusStep_trans hab hbc) (ih htl2)

theorem applyWorkerUpdate_step (db : DbState) (cmd : UpdateCmd) :
    List.Forall₂ StatusStep db.waste_collections (applyWorkerUpdate db cmd).waste_collections := by
  unfold applyWorkerUpdate
  rw [List.forall₂_map_right_iff]
  refine List.forall₂_same.mpr (fun c _ => ?_)
  by_cases hc : (c.id == cmd.collection_id && c.status == "scheduled") = true
  · have hsched : c.status = "scheduled" := by
      have := (Bool.and_eq_true _ _).mp hc
      exact eq_of_beq this.2
    rw [if_pos hc]
    refine ⟨?_, fun hne => absurd hsched hne⟩
    simp [hsched, statusRank]
  · rw [if_neg hc]
    exact statusStep_refl c

/-- C7: over any sequence of worker status updates, every collection row's
status only moves forward along the scheduled, collected, processed chain
(its rank never decreases), and any row that is not in the scheduled state —
in particular a row in the terminal processed state — is left entirely
untouched: out-of-order update attempts are ignored, not applied. -/
theorem collection_status_forward_only (db : DbState) (cmds : List UpdateCmd) :
    List.Forall₂
      (fun c c2 => statusRank c.status ≤ statusRank c2.status ∧
        (c.status ≠ "scheduled" → c2 = c))
      db.waste_collections (applyWorkerUpdates db cmds).waste_collections := by
  induction cmds generalizing db with
  | nil => exact List.forall₂_same.mpr (fun c _ => statusStep_refl c)
  | cons cmd rest ih =>
      exact forall2_statusStep_trans (applyWorkerUpdate_step db cmd)
        (ih (applyWorkerUpdate db cmd))

theorem collection_status_forward_only_witness :
    List.Forall₂
      (fun c c2 => statusRank c.status ≤ statusRank c2.status ∧
        (c.status ≠ "scheduled" → c2 = c))
      workerDb.waste_collections (applyWorkerUpdates workerDb workerCmds).waste_collections :=
  collection_status_forward_only workerDb workerCmds


/-- authenticate_user when no row carries the username. -/
theorem authenticate_user_eq_none (db : DbState) (un pw : String)
    (h : db.users.find? (fun x => x.username == un) = none) :
    authenticate_user db un pw = none := by
  unfold authenticate_user
  rw [h]

/-- authenticate_user when the lookup returns a row: recompute the hash and compare. -/
theorem authenticate_user_eq_some (db : DbState) (un pw : String) (u : User)
    (h : db.users.find? (fun x => x.username == un) = some u) :
    authenticate_user db un pw =
      if sha256hex pw = u.password_hash then some (authView u) else none := by
  unfold authenticate_user verify_password
  rw [h]
  by_cases hh : sha256hex pw = u.password_hash
  · simp [hh]
  · simp [hh, beq_eq_false_iff_ne.mpr hh]

/-- C8: authentication looks the user up by username, recomputes the SHA-256
hash of the supplied password and compares it to the stored hash; it returns
the user record exactly when a row with the username exists and the hashes
match, and in both failure cases — no such username, or hash mismatch — it
returns the one and the same failure value, none. -/
theorem authenticate_user_spec (db : DbState) (un pw : String) :
    (∀ r, authenticate_user db un pw = some r ↔
       ∃ u, db.users.find? (fun x => x.username == un) = some u ∧
         sha256hex pw = u.password_hash ∧ r = authView u) ∧
    (db.users.find? (fun x => x.username == un) = none →
       authenticate_user db un pw = none) ∧
    (∀ u, db.users.find? (fun x => x.username == un) = some u →
       sha256hex pw ≠ u.password_hash → authenticate_user db un pw = none) := by
  refine ⟨fun r => ?_, fun hc => authenticate_user_eq_none db un pw hc, fun u hu hne => ?_⟩
  · cases hf : db.users.find? (fun x => x.username == un) with
    | none =>
        rw [authenticate_user_eq_none db un pw hf]
        simp [hf]
    | some u =>
        rw [authenticate_user_eq_some db un pw u hf]
        constructor
        · intro hr
          by_cases hh : sha256hex pw = u.password_hash
          · rw [if_pos hh] at hr
            exact ⟨u, rfl, hh, (Option.some.inj hr).symm⟩
          · rw [if_neg hh] at hr
            exact Option.noConfusion hr
        · rintro ⟨u2, hu2, hh2, hr⟩
          have he : u = u2 := Option.some.inj hu2
          subst he
          rw [if_pos hh2, hr]
  · rw [authenticate_user_eq_some db un pw u hu, if_neg hne]

theorem authenticate_user_spec_witness :
    authenticate_user sampleDb "user1" "user1123" = some (authView sampleUser1) ∧
    authenticate_user sampleDb "nobody" "user1123" = none ∧
    authenticate_user sampleDb "user1" "wrongpw" = none := by
  refine ⟨?_, ?_, ?_⟩
  · exact ((authenticate_user_spec sampleDb "user1" "user1123").1 (authView sampleUser1)).mpr
      ⟨sampleUser1, by rfl, by rfl, rfl⟩
  · exact (authenticate_user_spec sampleDb "nobody" "user1123").2.1 (by rfl)
  · exact (authenticate_user_spec sampleDb "user1" "wrongpw").2.2 sampleUser1 (by rfl)
      (by decide)


theorem upperHex_digitChar : ∀ m : Nat, m < 16 →
    isUpperHexDigit ((Nat.digitChar m).toUpper) = true := by decide

theorem creditPoints_map_waste_id (l : List User) (uid : Nat) (d : Int) :
    (creditPoints l uid d).map (fun u => u.unique_waste_id) =
      l.map (fun u => u.unique_waste_id) := by
  unfold creditPoints
  rw [List.map_map]
  refine List.map_congr_left (fun u _ => ?_)
  simp only [Function.comp_apply]
  split
  · rfl
  · rfl

/-- C9: a successful registration creates exactly one user row whose tracking
code is WG followed by the year and the uppercase hex expansion of 4 bytes of
CSPRNG output (8 uppercase hexadecimal characters), with the schema defaults
role citizen, points 0, training not completed; the UNIQUE constraint makes
registration fail rather than store a duplicate code, so distinct tracking
codes stay distinct, and no other handler ever rewrites a tracking code. -/
theorem register_tracking_code_spec :
    (∀ (year b0 b1 b2 b3 : Nat), b0 < 256 → b1 < 256 → b2 < 256 → b3 < 256 →
       ∃ s : String, make_tracking_code year [b0, b1, b2, b3] =
           "WG" ++ toString year ++ s ∧
         s.length = 8 ∧ s.data.all isUpperHexDigit = true) ∧
    (∀ (db : DbState) (inp : RegisterInput) (year : Nat) (tokenBytes : List Nat)
       (now : String) (db2 : DbState), show_register db inp year tokenBytes now = .ok db2 →
       db2.users = db.users ++ [registerUser db inp year tokenBytes now] ∧
       (registerUser db inp year tokenBytes now).user_type = "citizen" ∧
       (registerUser db inp year tokenBytes now).points = 0 ∧
       (registerUser db inp year tokenBytes now).training_completed = false ∧
       (registerUser db inp year tokenBytes now).unique_waste_id =
         make_tracking_code year tokenBytes) ∧
    (∀ (db : DbState) (inp : RegisterInput) (year : Nat) (tokenBytes : List Nat)
       (now : String) (db2 : DbState), show_register db inp year tokenBytes now = .ok db2 →
       (db.users.map (fun u => u.unique_waste_id)).Pairwise (· ≠ ·) →
       (db2.users.map (fun u => u.unique_waste_id)).Pairwise (· ≠ ·)) ∧
    (∀ (db : DbState) (uid : Nat) (inp : ScheduleInput),
       (show_schedule_collection db uid inp).users.map (fun u => u.unique_waste_id) =
         db.users.map (fun u => u.unique_waste_id)) ∧
    (∀ (db : DbState) (uid : Nat) (inp : ComplaintInput) (now : String),
       (show_complaints_submit db uid inp now).users.map (fun u => u.unique_waste_id) =
         db.users.map (fun u => u.unique_waste_id)) := by
  refine ⟨?_, ?_, ?_, ?_, ?_⟩
  · intro year b0 b1 b2 b3 h0 h1 h2 h3
    refine ⟨token_hex_upper [b0, b1, b2, b3], rfl, rfl, ?_⟩
    have hdiv : ∀ b : Nat, b < 256 → b / 16 < 16 := by
      intro b hb
      omega
    have hmod : ∀ b : Nat, b % 16 < 16 := by
      intro b
      omega
    have e : ((([b0, b1, b2, b3].map byteHex).flatten).map Char.toUpper).all isUpperHexDigit =
        (isUpperHexDigit ((Nat.digitChar (b0 / 16)).toUpper) &&
         (isUpperHexDigit ((Nat.digitChar (b0 % 16)).toUpper) &&
          (isUpperHexDigit ((Nat.digitChar (b1 / 16)).toUpper) &&
           (isUpperHexDigit ((Nat.digitChar (b1 % 16)).toUpper) &&
            (isUpperHexDigit ((Nat.digitChar (b2 / 16)).toUpper) &&
             (isUpperHexDigit ((Nat.digitChar (b2 % 16)).toUpper) &&
              (isUpperHexDigit ((Nat.digitChar (b3 / 16)).toUpper) &&
               (isUpperHexDigit ((Nat.digitChar (b3 % 16)).toUpper) && true)))))))) := rfl
    show ((([b0, b1, b2, b3].map byteHex).flatten).map Char.toUpper).all isUpperHexDigit = true
    rw [e]
    simp only [Bool.and_true, Bool.and_eq_true]
    exact ⟨upperHex_digitChar _ (hdiv b0 h0), upperHex_digitChar _ (hmod b0),
      upperHex_digitChar _ (hdiv b1 h1), upperHex_digitChar _ (hmod b1),
      upperHex_digitChar _ (hdiv b2 h2), upperHex_digitChar _ (hmod b2),
      upperHex_digitChar _ (hdiv b3 h3), upperHex_digitChar _ (hmod b3)⟩
  · intro db inp year tokenBytes now db2 h
    unfold show_register at h
    by_cases hg : db.users.any (fun u =>
        u.username == inp.username || u.email == inp.email ||
          u.unique_waste_id == make_tracking_code year tokenBytes) = true
    · rw [if_pos hg] at h
      exact Except.noConfusion h
    · rw [if_neg hg] at h
      have hdb2 := Except.ok.inj h
      have husers : db2.users = db.users ++ [registerUser db inp year tokenBytes now] := by
        rw [← hdb2]
      exact ⟨husers, rfl, rfl, rfl, rfl⟩
  · intro db inp year tokenBytes now db2 h hpw
    unfold show_register at h
    by_cases hg : db.users.any (fun u =>
        u.username == inp.username || u.email == inp.email ||
          u.unique_waste_id == make_tracking_code year tokenBytes) = true
    · rw [if_pos hg] at h
      exact Except.noConfusion h
    · rw [if_neg hg] at h
      have hdb2 := Except.ok.inj h
      have husers : db2.users = db.users ++ [registerUser db inp year tokenBytes now] := by
        rw [← hdb2]
      rw [husers]
      have hnone : ∀ u ∈ db.users,
          u.unique_waste_id ≠ make_tracking_code year tokenBytes := by
        intro u hu
        have hfalse := List.any_eq_false.mp (Bool.eq_false_iff.mpr hg) u hu
        intro he
        apply hfalse
        have : (u.unique_waste_id == make_tracking_code year tokenBytes) = true :=
          beq_iff_eq.mpr he
        cases u.username == inp.username <;> cases u.email == inp.email <;>
          simp_all
      simp only [List.map_append, List.map_cons, List.map_nil]
      rw [List.pairwise_append]
      refine ⟨hpw, by simp, ?_⟩
      intro a ha b hb
      simp only [List.mem_singleton] at hb
      rcases List.mem_map.mp ha with ⟨u, hu, hau⟩
      rw [hb, ← hau]
      exact hnone u hu
  · intro db uid inp
    exact creditPoints_map_waste_id db.users uid _
  · intro db uid inp now
    exact creditPoints_map_waste_id db.users uid 5

theorem register_tracking_code_spec_witness :
    (∃ s : String, make_tracking_code 2026 [171, 18, 205, 52] =
        "WG" ++ toString 2026 ++ s ∧ s.length = 8 ∧ s.data.all isUpperHexDigit = true) ∧
    List.Pairwise (· ≠ ·)
      ((registerState aliceDb regInp 2026 [1, 35, 69, 103] "2026-10-12").users.map
        (fun u => u.unique_waste_id)) := by
  constructor
  · exact register_tracking_code_spec.1 2026 171 18 205 52 (by decide) (by decide)
      (by decide) (by decide)
  · have hok : show_register aliceDb regInp 2026 [1, 35, 69, 103] "2026-10-12" =
        .ok (registerState aliceDb regInp 2026 [1, 35, 69, 103] "2026-10-12") := by
      rfl
    exact register_tracking_code_spec.2.2.1 aliceDb regInp 2026 [1, 35, 69, 103]
      "2026-10-12" _ hok (by decide)


/-- C10: registration followed by authentication round-trips: both paths apply
the same SHA-256 digest (sha256hex) to the password, so after a successful
registration, authenticating with the registered username and the same
password returns exactly the created user's record, while any password whose
hash differs from the registered one is rejected with none. -/
theorem register_then_authenticate (db : DbState) (inp : RegisterInput) (year : Nat)
    (tokenBytes : List Nat) (now : String) (db2 : DbState)
    (h : show_register db inp year tokenBytes now = .ok db2) :
    authenticate_user db2 inp.username inp.password =
      some (authView (registerUser db inp year tokenBytes now)) ∧
    (∀ pw2, sha256hex pw2 ≠ sha256hex inp.password →
       authenticate_user db2 inp.username pw2 = none) := by
  unfold show_register at h
  by_cases hg : db.users.any (fun u =>
      u.username == inp.username || u.email == inp.email ||
        u.unique_waste_id == make_tracking_code year tokenBytes) = true
  · rw [if_pos hg] at h
    exact Except.noConfusion h
  · rw [if_neg hg] at h
    have hdb2 := Except.ok.inj h
    have husers : db2.users = db.users ++ [registerUser db inp year tokenBytes now] := by
      rw [← hdb2]
    have hpre : ∀ x ∈ db.users, (x.username == inp.username) = false := by
      intro x hx
      have hfalse := List.any_eq_false.mp (Bool.eq_false_iff.mpr hg) x hx
      cases hxu : x.username == inp.username
      · rfl
      · exact absurd (by simp [hxu]) hfalse
    have hfind : db2.users.find? (fun u => u.username == inp.username) =
        some (registerUser db inp year tokenBytes now) := by
      rw [husers, find?_append_of_none db.users _ _ hpre]
      simp [List.find?, registerUser]
    have hph : (registerUser db inp year tokenBytes now).password_hash =
        sha256hex inp.password := rfl
    constructor
    · rw [authenticate_user_eq_some db2 inp.username inp.password _ hfind, hph, if_pos rfl]
    · intro pw2 hne
      rw [authenticate_user_eq_some db2 inp.username pw2 _ hfind, hph, if_neg hne]

theorem register_then_authenticate_witness :
    authenticate_user (registerState emptyDb regInp 2026 [1, 2, 3, 4] "2026-10-12")
        regInp.username regInp.password =
      some (authView (registerUser emptyDb regInp 2026 [1, 2, 3, 4] "2026-10-12")) ∧
    authenticate_user (registerState emptyDb regInp 2026 [1, 2, 3, 4] "2026-10-12")
        regInp.username "wrongpw" = none := by
  have hok : show_register emptyDb regInp 2026 [1, 2, 3, 4] "2026-10-12" =
      .ok (registerState emptyDb regInp 2026 [1, 2, 3, 4] "2026-10-12") := by
    rfl
  have h := register_then_authenticate emptyDb regInp 2026 [1, 2, 3, 4] "2026-10-12" _ hok
  exact ⟨h.1, h.2 "wrongpw" (by decide)⟩

end WasteMgmt
